import Mathlib

/-!
Shallow embedding of the `amplifier-module-loop-events` orchestrator
(`src/amplifier_module_loop_events/__init__.py`, class `EventDrivenOrchestrator`).

The orchestrator's collaborators (provider, tools, hooks, context) are modelled
as pure functions supplied in an environment; a run of `execute` produces an
ordered trace of observable actions (hook emissions, provider completion calls,
tool executions, context message appends, compaction calls) together with the
final context message list and the returned string.
-/

namespace LoopEvents

/-- A tool call parsed from a provider response: tool name, opaque arguments
(rendered as a string), and the provider-assigned call id. -/
structure ToolCall where
  tool : String
  arguments : String
  id : String
deriving DecidableEq

/-- A conversation message as passed to `context.add_message`: role, content,
and the optional keys the orchestrator sets (`name`, `tool_call_id`,
`tool_calls`). -/
structure Message where
  role : String
  content : String
  name : Option String := none
  tool_call_id : Option String := none
  tool_calls : Option (List ToolCall) := none
deriving DecidableEq

/-- Result of a tool execution (`amplifier_core.ToolResult`): success flag,
string form of the output, string form of the error. -/
structure ToolResult where
  success : Bool
  output : String
  error : String
deriving DecidableEq

/-- A value stored in a hook event payload. -/
inductive PVal where
  | s (v : String)
  | sl (v : List String)
  | toolObj
  | nil
  | res (r : ToolResult)
deriving DecidableEq

/-- A hook event payload: an ordered key/value mapping, mirroring the Python
dict literals built at each `hooks.emit` site. -/
abbrev Payload := List (String × PVal)

/-- Verdict returned by `hooks.emit`: an action (`allow`/`deny`/`modify`), an
optional reason, and optional data (a string-to-string mapping). -/
structure HookResult where
  action : String
  reason : Option String := none
  data : Option (List (String × String)) := none

/-- Outcome of `tool.execute`: a normal `ToolResult` or a raised exception
carrying its message string. -/
inductive ExecOutcome where
  | ok (r : ToolResult)
  | exn (msg : String)

/-- A mounted tool: its `execute` behaviour as a pure function of the
(string-rendered) arguments. -/
structure Tool where
  execute : String → ExecOutcome

/-- A provider response after `parse_tool_calls` has been applied: the text
content and the parsed tool calls (empty list when none). -/
structure PResponse where
  content : String
  toolCalls : List ToolCall

/-- Outcome of `provider.complete`: a response or a raised exception carrying
its message string. -/
inductive CompleteOutcome where
  | ok (r : PResponse)
  | exn (msg : String)

/-- A provider: `complete` as a pure function of the current messages and the
tool objects passed along (`list(tools.values())`). -/
structure Provider where
  complete : List Message → List Tool → CompleteOutcome

/-- One observable action of a run, in program order. -/
inductive Ev where
  | emit (event : String) (payload : Payload)
  | completeCall
  | execTool (tool : String) (arguments : String)
  | compactCall
  | addMessage (m : Message)
deriving DecidableEq

/-- The environment of one `execute` invocation: the `providers` and `tools`
mappings (ordered association lists, like Python dicts), the configuration
(`default_provider`, `max_iterations`), and the collaborators' behaviour as
pure functions (hook dispatch, `context.should_compact`, `context.compact`). -/
structure Env where
  providers : List (String × Provider)
  defaultProvider : Option String := none
  tools : List (String × Tool)
  hookFn : String → Payload → HookResult
  shouldCompact : List Message → Bool
  compactFn : List Message → List Message
  maxIterations : Nat := 50

/-- Run state: the context's message list and the trace of actions so far. -/
structure St where
  msgs : List Message
  tr : List Ev

/-- Python `x or default` on an optional string: `None` and the empty string
are falsy. Used for `hook_result.reason or "..."`. -/
def pyOr (o : Option String) (d : String) : String :=
  match o with
  | none => d
  | some s => if s = "" then d else s

/-- The `modify` branch (line 143): `hook_result.data.get("tool", tool_name)
if hook_result.data else tool_name`; an absent or empty dict is falsy. -/
def modifyName (hr : HookResult) (orig : String) : String :=
  match hr.data with
  | none => orig
  | some d => if d = [] then orig else (List.lookup "tool" d).getD orig

/-- String rendering of the error mapping synthesized on a tool-execution
exception (line 205, `error={"message": str(e)}`), as formatted into the
tool-role message. The exact rendering is opaque to the orchestrator. -/
def execFailureError (msg : String) : String :=
  "\x7bmessage: " ++ msg ++ "\x7d"

/-- Provider selection (`_select_provider`, lines 246-264): none if the
mapping is empty; the configured default if set (non-empty: Python truthiness)
and present; else the first entry. -/
def selectProvider (env : Env) : Option Provider :=
  if env.providers.isEmpty then none
  else
    match env.defaultProvider with
    | none => env.providers.head?.map Prod.snd
    | some d =>
      if d = "" then env.providers.head?.map Prod.snd
      else
        match List.lookup d env.providers with
        | some p => some p
        | none => env.providers.head?.map Prod.snd

/-- Payload of the `tool:selecting` emission (lines 124-127). -/
def selectingPayload (env : Env) (tc : ToolCall) : Payload :=
  [("tool", PVal.s tc.tool), ("arguments", PVal.s tc.arguments),
   ("available_tools", PVal.sl (env.tools.map Prod.fst))]

/-- The hook verdict for `tool:selecting` on a given call. -/
def selectingResult (env : Env) (tc : ToolCall) : HookResult :=
  env.hookFn "tool:selecting" (selectingPayload env tc)

/-- The effective tool name after the optional scheduler modification
(lines 141-144). -/
def resolvedName (env : Env) (tc : ToolCall) : String :=
  if (selectingResult env tc).action = "modify" then
    modifyName (selectingResult env tc) tc.tool
  else tc.tool

/-- Payload of the `tool:selected` emission (lines 147-154). -/
def selectedPayload (env : Env) (tc : ToolCall) : Payload :=
  [("tool", PVal.s (resolvedName env tc)),
   ("source", PVal.s (if (selectingResult env tc).action = "modify" then "scheduler" else "llm")),
   ("original_tool",
     if (selectingResult env tc).action = "modify" then PVal.s tc.tool else PVal.nil)]

/-- Payload of the `tool:pre` emission (lines 160-162): tool name and
arguments, plus the tool object when the lookup succeeded. -/
def prePayload (env : Env) (toolName : String) (args : String) : Payload :=
  [("tool", PVal.s toolName), ("arguments", PVal.s args)] ++
    (if (List.lookup toolName env.tools).isSome then [("tool_obj", PVal.toolObj)] else [])

/-- The hook verdict for `tool:pre` on a given call. -/
def preResult (env : Env) (tc : ToolCall) : HookResult :=
  env.hookFn "tool:pre" (prePayload env (resolvedName env tc) tc.arguments)

/-- A tool-role message answering one tool call (the shape appended at
lines 132-139, 168-175, 181-188 and 227-234). -/
def toolMsg (toolName : String) (callId : String) (content : String) : Message :=
  { role := "tool", content := content, name := some toolName,
    tool_call_id := some callId }

/-- The three emissions every call that survives the `tool:selecting` veto
performs before the second veto point: `tool:selecting`, `tool:selected`,
`tool:pre` (lines 124-163). -/
def headerEvents (env : Env) (tc : ToolCall) : List Ev :=
  [Ev.emit "tool:selecting" (selectingPayload env tc),
   Ev.emit "tool:selected" (selectedPayload env tc),
   Ev.emit "tool:pre" (prePayload env (resolvedName env tc) tc.arguments)]

/-- Processing of one tool call (the body of the `for tool_call in tool_calls`
loop, lines 119-234), as the ordered list of observable actions it performs. -/
def runCall (env : Env) (tc : ToolCall) : List Ev :=
  if (selectingResult env tc).action = "deny" then
    [Ev.emit "tool:selecting" (selectingPayload env tc),
     Ev.addMessage (toolMsg tc.tool tc.id
       ("Error: " ++ pyOr (selectingResult env tc).reason "Tool execution denied by scheduler"))]
  else
    if (preResult env tc).action = "deny" then
      headerEvents env tc ++
        [Ev.addMessage (toolMsg (resolvedName env tc) tc.id
          ("Error: " ++ pyOr (preResult env tc).reason "Tool execution denied"))]
    else
      match List.lookup (resolvedName env tc) env.tools with
      | none =>
        headerEvents env tc ++
          [Ev.addMessage (toolMsg (resolvedName env tc) tc.id
             ("Error: Tool " ++ resolvedName env tc ++ " not found")),
           Ev.emit "error:tool"
             [("error_type", PVal.s "tool_not_found"),
              ("error_message", PVal.s ("Tool " ++ resolvedName env tc ++ " not found")),
              ("severity", PVal.s "medium")]]
      | some t =>
        match t.execute tc.arguments with
        | ExecOutcome.ok result =>
          headerEvents env tc ++
            [Ev.execTool (resolvedName env tc) tc.arguments,
             Ev.emit "tool:post"
               [("tool", PVal.s (resolvedName env tc)), ("result", PVal.res result)],
             Ev.addMessage (toolMsg (resolvedName env tc) tc.id
               (if result.success then result.output else "Error: " ++ result.error))]
        | ExecOutcome.exn e =>
          headerEvents env tc ++
            [Ev.execTool (resolvedName env tc) tc.arguments,
             Ev.emit "error:tool"
               [("error_type", PVal.s "execution_failed"),
                ("error_message", PVal.s e),
                ("tool", PVal.s (resolvedName env tc)),
                ("severity", PVal.s "high")],
             Ev.emit "tool:post"
               [("tool", PVal.s (resolvedName env tc)),
                ("result", PVal.res { success := false, output := "",
                                      error := execFailureError e })],
             Ev.addMessage (toolMsg (resolvedName env tc) tc.id
               ("Error: " ++ execFailureError e))]

/-- Processing of a whole list of tool calls, sequentially in order. -/
def runCalls (env : Env) (tcs : List ToolCall) : List Ev :=
  (tcs.map (runCall env)).flatten

/-- The messages appended to the context by a list of actions, in order. -/
def appended (evs : List Ev) : List Message :=
  evs.filterMap (fun e =>
    match e with
    | Ev.addMessage m => some m
    | _ => none)

/-- Payload of the `error:provider` emission (lines 89-96). -/
def providerErrorPayload (e : String) : Payload :=
  [("error_type", PVal.s "completion_failed"),
   ("error_message", PVal.s e),
   ("severity", PVal.s "high")]

/-- The assistant message recording a tool-call-bearing response
(lines 110-116). -/
def asstMsg (r : PResponse) : Message :=
  { role := "assistant", content := r.content, tool_calls := some r.toolCalls }

/-- The assistant message recording a final (tool-call-free) response
(line 106). -/
def finalMsg (r : PResponse) : Message :=
  { role := "assistant", content := r.content }

/-- The actions of the end-of-iteration compaction check (lines 236-239):
when `context.should_compact()` holds, emit `context:pre-compact` and then
invoke `context.compact()`; otherwise nothing. -/
def compactEvents (b : Bool) : List Ev :=
  if b then [Ev.emit "context:pre-compact" [], Ev.compactCall] else []

/-- State transformation of one full iteration that found tool calls:
append the assistant message, process every call, then run the end-of-
iteration compaction check (lines 109-239). -/
def stepState (env : Env) (st : St) (r : PResponse) : St :=
  let evs := runCalls env r.toolCalls
  let msgs1 := st.msgs ++ [asstMsg r] ++ appended evs
  { msgs := if env.shouldCompact msgs1 then env.compactFn msgs1 else msgs1,
    tr := st.tr ++ [Ev.completeCall, Ev.addMessage (asstMsg r)] ++ evs ++
      compactEvents (env.shouldCompact msgs1) }

/-- The `while iteration < max_iterations` loop (lines 76-239), with the
remaining iteration budget as fuel. Returns the final state and the
`final_response` value (initialized to the empty string, line 74). -/
def loop (env : Env) (p : Provider) : Nat → St → St × String
  | 0, st => (st, "")
  | n + 1, st =>
    match p.complete st.msgs (env.tools.map Prod.snd) with
    | CompleteOutcome.exn e =>
      ({ msgs := st.msgs,
         tr := st.tr ++ [Ev.completeCall, Ev.emit "error:provider" (providerErrorPayload e)] },
       "Error getting response: " ++ e)
    | CompleteOutcome.ok r =>
      if r.toolCalls = [] then
        ({ msgs := st.msgs ++ [finalMsg r],
           tr := st.tr ++ [Ev.completeCall, Ev.addMessage (finalMsg r)] },
         r.content)
      else
        loop env p n (stepState env st r)

/-- The user message appended on entry (line 66). -/
def userMsg (prompt : String) : Message :=
  { role := "user", content := prompt }

/-- The state after the entry actions of `execute` (lines 62-66):
`session:start` emitted, then the user message appended. -/
def initSt (prompt : String) : St :=
  { msgs := [userMsg prompt],
    tr := [Ev.emit "session:start" [("prompt", PVal.s prompt)],
           Ev.addMessage (userMsg prompt)] }

/-- `EventDrivenOrchestrator.execute` (lines 46-244): session start, user
message, provider selection (early return when none), the iteration loop,
then `session:end` with the final response. -/
def execute (env : Env) (prompt : String) : St × String :=
  match selectProvider env with
  | none => (initSt prompt, "Error: No providers available")
  | some p =>
    let res := loop env p env.maxIterations (initSt prompt)
    ({ msgs := res.1.msgs,
       tr := res.1.tr ++ [Ev.emit "session:end" [("response", PVal.s res.2)]] },
     res.2)

/-- Whether an action is a hook emission of the given event name. -/
def isEmitOf (n : String) : Ev → Bool
  | Ev.emit m _ => m == n
  | _ => false

/-- Whether an action is a tool execution. -/
def isExecTool : Ev → Bool
  | Ev.execTool _ _ => true
  | _ => false

/-- Whether an action is a `provider.complete` invocation. -/
def isCompleteCall : Ev → Bool
  | Ev.completeCall => true
  | _ => false

/-- Whether an action is a `context.compact` invocation. -/
def isCompactCall : Ev → Bool
  | Ev.compactCall => true
  | _ => false

/-- Whether a message has the tool role. -/
def isToolRole (m : Message) : Bool :=
  m.role == "tool"

/-! Concrete test fixtures: a small environment family used to instantiate the
general theorems on closed inputs. -/

/-- A hook registry whose observers never object. -/
def allowHooks : String → Payload → HookResult :=
  fun _ _ => { action := "allow" }

/-- A tool that succeeds and echoes its arguments. -/
def echoTool : Tool :=
  { execute := fun a => ExecOutcome.ok { success := true, output := "out:" ++ a, error := "" } }

/-- A tool whose execution raises. -/
def failTool : Tool :=
  { execute := fun _ => ExecOutcome.exn "tool blew up" }

/-- A tool call requesting the echo tool. -/
def tcEcho : ToolCall :=
  { tool := "echo", arguments := "a", id := "id1" }

/-- A tool call requesting a tool that is not mounted. -/
def tcGhost : ToolCall :=
  { tool := "ghost", arguments := "g", id := "id2" }

/-- A response carrying one tool call. -/
def respEcho : PResponse :=
  { content := "", toolCalls := [tcEcho] }

/-- A response carrying no tool calls. -/
def respFinal : PResponse :=
  { content := "done", toolCalls := [] }

/-- A provider that requests the echo tool on the first turn and answers
plainly afterwards. -/
def provEcho : Provider :=
  { complete := fun msgs _ =>
      if msgs.length ≤ 1 then CompleteOutcome.ok respEcho else CompleteOutcome.ok respFinal }

/-- A provider whose completion always raises. -/
def provFail : Provider :=
  { complete := fun _ _ => CompleteOutcome.exn "boom" }

/-- The base concrete environment: one provider, the echo tool, permissive
hooks, no compaction, an iteration budget of 3. -/
def envBase : Env :=
  { providers := [("p", provEcho)], tools := [("echo", echoTool)], hookFn := allowHooks,
    shouldCompact := fun _ => false, compactFn := id, maxIterations := 3 }

/-- A hook registry whose scheduler denies at `tool:selecting` without a
reason. -/
def denySelectingHooks : String → Payload → HookResult :=
  fun n _ => if n = "tool:selecting" then { action := "deny" } else { action := "allow" }

/-- A hook registry that denies at `tool:pre` with an explicit reason. -/
def denyPreHooks : String → Payload → HookResult :=
  fun n _ => if n = "tool:pre" then { action := "deny", reason := some "blocked" }
             else { action := "allow" }

/-- A hook registry whose scheduler rewrites every selection to the echo
tool. -/
def modifyHooks : String → Payload → HookResult :=
  fun n _ => if n = "tool:selecting" then
               { action := "modify", data := some [("tool", "echo")] }
             else { action := "allow" }

/-- A hook registry that rewrites every selection to the echo tool and then
denies at `tool:pre`. -/
def modifyThenDenyHooks : String → Payload → HookResult :=
  fun n _ => if n = "tool:selecting" then
               { action := "modify", data := some [("tool", "echo")] }
             else if n = "tool:pre" then { action := "deny" }
             else { action := "allow" }

/-- A provider that always answers plainly with no tool calls. -/
def provDone : Provider :=
  { complete := fun _ _ => CompleteOutcome.ok respFinal }

/-- The base environment with the scheduler denying at `tool:selecting`. -/
def envDenySel : Env :=
  { envBase with hookFn := denySelectingHooks }

/-- The base environment with no tools mounted and a denying `tool:pre`
hook. -/
def envPreDeny : Env :=
  { envBase with tools := [], hookFn := denyPreHooks }

/-- The base environment with the scheduler modifying the selection and a
denying `tool:pre` hook. -/
def envModDeny : Env :=
  { envBase with hookFn := modifyThenDenyHooks }

/-- The base environment with a modifying scheduler and permissive
`tool:pre` hook. -/
def envMod : Env :=
  { envBase with hookFn := modifyHooks }

/-- The base environment with no tools mounted. -/
def envNoTools : Env :=
  { envBase with tools := [] }

/-- The base environment with a provider that never requests tools. -/
def envDone : Env :=
  { envBase with providers := [("p", provDone)] }

/-- The base environment with an iteration budget of one. -/
def envOne : Env :=
  { envBase with maxIterations := 1 }

/-- The base environment with no providers. -/
def envEmpty : Env :=
  { envBase with providers := [] }

/-! Helper lemmas about the per-call processor and the loop. -/

/-- Every call that is not denied at `tool:selecting` performs the three
header emissions first. -/
theorem runCall_header (env : Env) (tc : ToolCall)
    (h1 : (selectingResult env tc).action ≠ "deny") :
    ∃ rest, runCall env tc = headerEvents env tc ++ rest := by
  unfold runCall
  rw [if_neg h1]
  split
  · exact ⟨_, rfl⟩
  · split
    · exact ⟨_, rfl⟩
    · split
      · exact ⟨_, rfl⟩
      · exact ⟨_, rfl⟩

/-- When neither veto point denies and the resolved tool is found, the tool
is executed. -/
theorem runCall_exec_mem (env : Env) (tc : ToolCall) (t : Tool)
    (h1 : (selectingResult env tc).action ≠ "deny")
    (h2 : (preResult env tc).action ≠ "deny")
    (ht : List.lookup (resolvedName env tc) env.tools = some t) :
    Ev.execTool (resolvedName env tc) tc.arguments ∈ runCall env tc := by
  unfold runCall
  rw [if_neg h1, if_neg h2]
  split
  next heq => rw [ht] at heq; exact Option.noConfusion heq
  next t2 heq =>
    rw [ht] at heq
    cases Option.some.inj heq
    split <;> simp [headerEvents]

/-- Every outcome of processing one tool call appends exactly one message,
and it is a tool-role message answering that call's id. -/
theorem runCall_appended (env : Env) (tc : ToolCall) :
    ∃ nm c, appended (runCall env tc) = [toolMsg nm tc.id c] := by
  unfold runCall
  split
  · exact ⟨_, _, rfl⟩
  · split
    · exact ⟨_, _, rfl⟩
    · split
      · exact ⟨_, _, rfl⟩
      · split
        · exact ⟨_, _, rfl⟩
        · exact ⟨_, _, rfl⟩

/-- Processing one tool call never performs a completion call, a compaction,
or an emission of `session:end`, `error:provider`, or `context:pre-compact`. -/
theorem runCall_inert (env : Env) (tc : ToolCall) :
    ∀ e ∈ runCall env tc,
      isCompleteCall e = false ∧ isCompactCall e = false ∧
      isEmitOf "session:end" e = false ∧ isEmitOf "error:provider" e = false ∧
      isEmitOf "context:pre-compact" e = false := by
  unfold runCall
  split
  · intro e he
    simp only [List.mem_cons, List.not_mem_nil, or_false] at he
    rcases he with rfl | rfl <;> exact ⟨rfl, rfl, rfl, rfl, rfl⟩
  · split
    · intro e he
      simp only [headerEvents, List.mem_append, List.mem_cons, List.not_mem_nil, or_false] at he
      rcases he with (rfl | rfl | rfl) | rfl <;> exact ⟨rfl, rfl, rfl, rfl, rfl⟩
    · split
      · intro e he
        simp only [headerEvents, List.mem_append, List.mem_cons, List.not_mem_nil, or_false] at he
        rcases he with (rfl | rfl | rfl) | rfl | rfl <;> exact ⟨rfl, rfl, rfl, rfl, rfl⟩
      · split
        · intro e he
          simp only [headerEvents, List.mem_append, List.mem_cons, List.not_mem_nil,
            or_false] at he
          rcases he with (rfl | rfl | rfl) | rfl | rfl | rfl <;> exact ⟨rfl, rfl, rfl, rfl, rfl⟩
        · intro e he
          simp only [headerEvents, List.mem_append, List.mem_cons, List.not_mem_nil,
            or_false] at he
          rcases he with (rfl | rfl | rfl) | rfl | rfl | rfl | rfl <;>
            exact ⟨rfl, rfl, rfl, rfl, rfl⟩

/-- Tool calls are processed sequentially: the actions of a list of calls are
the actions of the first followed by those of the rest. -/
theorem runCalls_cons (env : Env) (tc : ToolCall) (tcs : List ToolCall) :
    runCalls env (tc :: tcs) = runCall env tc ++ runCalls env tcs := by
  simp [runCalls]

/-- The inertness properties of `runCall_inert`, lifted to a list of calls. -/
theorem runCalls_inert (env : Env) (tcs : List ToolCall) :
    ∀ e ∈ runCalls env tcs,
      isCompleteCall e = false ∧ isCompactCall e = false ∧
      isEmitOf "session:end" e = false ∧ isEmitOf "error:provider" e = false ∧
      isEmitOf "context:pre-compact" e = false := by
  intro e he
  unfold runCalls at he
  rw [List.mem_flatten] at he
  obtain ⟨l, hl, hel⟩ := he
  rw [List.mem_map] at hl
  obtain ⟨tc, _, rfl⟩ := hl
  exact runCall_inert env tc e hel

/-- A list on which a predicate is everywhere false has count zero. -/
theorem countP_zero_of {α : Type} {q : α → Bool} {l : List α}
    (h : ∀ e ∈ l, q e = false) : l.countP q = 0 :=
  List.countP_eq_zero.mpr (fun e he => by simp [h e he])

/-- Loop unfolding, provider-failure branch (lines 83-98): the iteration
appends the completion call and one `error:provider` emission, and the loop
returns the error string at once. -/
theorem loop_succ_exn (env : Env) (p : Provider) (st : St) (n : Nat) (e : String)
    (hc : p.complete st.msgs (env.tools.map Prod.snd) = CompleteOutcome.exn e) :
    loop env p (n + 1) st =
      ({ msgs := st.msgs,
         tr := st.tr ++ [Ev.completeCall, Ev.emit "error:provider" (providerErrorPayload e)] },
       "Error getting response: " ++ e) := by
  simp only [loop]
  rw [hc]

/-- Loop unfolding, no-tool-calls branch (lines 103-107): the iteration
appends the final assistant message and the loop returns the content. -/
theorem loop_succ_done (env : Env) (p : Provider) (st : St) (n : Nat) (r : PResponse)
    (hc : p.complete st.msgs (env.tools.map Prod.snd) = CompleteOutcome.ok r)
    (hr : r.toolCalls = []) :
    loop env p (n + 1) st =
      ({ msgs := st.msgs ++ [finalMsg r],
         tr := st.tr ++ [Ev.completeCall, Ev.addMessage (finalMsg r)] },
       r.content) := by
  simp only [loop]
  rw [hc]
  simp [hr]

/-- Loop unfolding, tool-calls branch (lines 109-239): the iteration reduces
to the loop on the remaining budget from the stepped state. -/
theorem loop_succ_step (env : Env) (p : Provider) (st : St) (n : Nat) (r : PResponse)
    (hc : p.complete st.msgs (env.tools.map Prod.snd) = CompleteOutcome.ok r)
    (hr : r.toolCalls ≠ []) :
    loop env p (n + 1) st = loop env p n (stepState env st r) := by
  simp only [loop]
  rw [hc]
  simp only [if_neg hr]

/-- The trace added by a full tool-call iteration: completion call, assistant
message, the per-call actions in order, then the compaction check. -/
theorem stepState_tr (env : Env) (st : St) (r : PResponse) :
    (stepState env st r).tr =
      st.tr ++ [Ev.completeCall, Ev.addMessage (asstMsg r)] ++ runCalls env r.toolCalls ++
        compactEvents
          (env.shouldCompact (st.msgs ++ [asstMsg r] ++ appended (runCalls env r.toolCalls))) :=
  rfl

/-- The loop only ever appends to the trace it is given. -/
theorem loop_tr_extend (env : Env) (p : Provider) :
    ∀ (n : Nat) (st : St), ∃ rest, (loop env p n st).1.tr = st.tr ++ rest := by
  intro n
  induction n with
  | zero => intro st; exact ⟨[], by simp [loop]⟩
  | succ n ih =>
    intro st
    cases hc : p.complete st.msgs (env.tools.map Prod.snd) with
    | exn e => exact ⟨_, by rw [loop_succ_exn env p st n e hc]⟩
    | ok r =>
      by_cases hr : r.toolCalls = []
      · exact ⟨_, by rw [loop_succ_done env p st n r hc hr]⟩
      · obtain ⟨rest, hrest⟩ := ih (stepState env st r)
        refine ⟨[Ev.completeCall, Ev.addMessage (asstMsg r)] ++ runCalls env r.toolCalls ++
          compactEvents (env.shouldCompact
            (st.msgs ++ [asstMsg r] ++ appended (runCalls env r.toolCalls))) ++ rest, ?_⟩
        rw [loop_succ_step env p st n r hc hr, hrest, stepState_tr]
        simp [List.append_assoc]

/-- Whenever iteration budget remains, the first action of the loop is a
`provider.complete` invocation. -/
theorem loop_tr_begin (env : Env) (p : Provider) (n : Nat) (st : St) (h : 0 < n) :
    ∃ rest, (loop env p n st).1.tr = st.tr ++ Ev.completeCall :: rest := by
  cases n with
  | zero => exact absurd h (lt_irrefl 0)
  | succ n =>
    cases hc : p.complete st.msgs (env.tools.map Prod.snd) with
    | exn e => exact ⟨_, by rw [loop_succ_exn env p st n e hc]⟩
    | ok r =>
      by_cases hr : r.toolCalls = []
      · exact ⟨_, by rw [loop_succ_done env p st n r hc hr]⟩
      · obtain ⟨rest, hrest⟩ := loop_tr_extend env p n (stepState env st r)
        refine ⟨Ev.addMessage (asstMsg r) :: (runCalls env r.toolCalls ++
          compactEvents (env.shouldCompact
            (st.msgs ++ [asstMsg r] ++ appended (runCalls env r.toolCalls))) ++ rest), ?_⟩
        rw [loop_succ_step env p st n r hc hr, hrest, stepState_tr]
        simp [List.append_assoc]

/-- The compaction check emits neither `session:end` nor `error:provider`
and performs no completion call. -/
theorem compactEvents_counts (b : Bool) :
    (compactEvents b).countP (isEmitOf "session:end") = 0 ∧
    (compactEvents b).countP (isEmitOf "error:provider") = 0 ∧
    (compactEvents b).countP isCompleteCall = 0 := by
  cases b <;> exact ⟨rfl, rfl, rfl⟩

/-- The loop never emits `session:end`. -/
theorem loop_countP_sessionEnd (env : Env) (p : Provider) :
    ∀ (n : Nat) (st : St),
      ((loop env p n st).1.tr).countP (isEmitOf "session:end") =
        st.tr.countP (isEmitOf "session:end") := by
  intro n
  induction n with
  | zero => intro st; simp [loop]
  | succ n ih =>
    intro st
    cases hc : p.complete st.msgs (env.tools.map Prod.snd) with
    | exn e =>
      rw [loop_succ_exn env p st n e hc]
      simp [List.countP_append, List.countP_cons, isEmitOf]
    | ok r =>
      by_cases hr : r.toolCalls = []
      · rw [loop_succ_done env p st n r hc hr]
        simp [List.countP_append, List.countP_cons, isEmitOf]
      · rw [loop_succ_step env p st n r hc hr, ih, stepState_tr]
        have h1 : (runCalls env r.toolCalls).countP (isEmitOf "session:end") = 0 :=
          countP_zero_of (fun e he => (runCalls_inert env r.toolCalls e he).2.2.1)
        simp only [List.countP_append]
        rw [h1, (compactEvents_counts _).1]
        simp [List.countP_cons, isEmitOf]

/-- The loop emits `error:provider` at most once. -/
theorem loop_countP_errProvider (env : Env) (p : Provider) :
    ∀ (n : Nat) (st : St),
      ((loop env p n st).1.tr).countP (isEmitOf "error:provider") ≤
        st.tr.countP (isEmitOf "error:provider") + 1 := by
  intro n
  induction n with
  | zero => intro st; simp [loop]
  | succ n ih =>
    intro st
    cases hc : p.complete st.msgs (env.tools.map Prod.snd) with
    | exn e =>
      rw [loop_succ_exn env p st n e hc]
      simp [List.countP_append, List.countP_cons, isEmitOf]
    | ok r =>
      by_cases hr : r.toolCalls = []
      · rw [loop_succ_done env p st n r hc hr]
        simp [List.countP_append, List.countP_cons, isEmitOf]
      · rw [loop_succ_step env p st n r hc hr]
        refine le_trans (ih (stepState env st r)) ?_
        rw [stepState_tr]
        have h1 : (runCalls env r.toolCalls).countP (isEmitOf "error:provider") = 0 :=
          countP_zero_of (fun e he => (runCalls_inert env r.toolCalls e he).2.2.2.1)
        simp only [List.countP_append]
        rw [h1, (compactEvents_counts _).2.1]
        simp [List.countP_cons, isEmitOf]

/-- Unfolding of `execute` when no provider is selected. -/
theorem execute_none (env : Env) (prompt : String)
    (hp : selectProvider env = none) :
    execute env prompt = (initSt prompt, "Error: No providers available") := by
  unfold execute
  rw [hp]

/-- Unfolding of `execute` when a provider is selected: run the loop from the
initial state, then emit `session:end` with the final response. -/
theorem execute_some (env : Env) (prompt : String) (p : Provider)
    (hp : selectProvider env = some p) :
    execute env prompt =
      ({ msgs := (loop env p env.maxIterations (initSt prompt)).1.msgs,
         tr := (loop env p env.maxIterations (initSt prompt)).1.tr ++
           [Ev.emit "session:end"
             [("response", PVal.s (loop env p env.maxIterations (initSt prompt)).2)]] },
       (loop env p env.maxIterations (initSt prompt)).2) := by
  unfold execute
  rw [hp]

/-- An empty provider mapping selects no provider. -/
theorem selectProvider_empty (env : Env) (h : env.providers = []) :
    selectProvider env = none := by
  unfold selectProvider
  rw [h]
  rfl

/-- The context appends of concatenated action lists concatenate. -/
theorem appended_append (l1 l2 : List Ev) :
    appended (l1 ++ l2) = appended l1 ++ appended l2 := by
  unfold appended
  exact List.filterMap_append _ _ _

/-! Claim theorems. -/

/-- C1: for every assistant message carrying tool calls, processing those
calls appends exactly one tool-role message per tool call (with the matching
call id), whatever the per-call outcome among scheduler denial at
`tool:selecting`, denial at `tool:pre`, tool not found, execution failure, or
success: the tool-role messages appended by processing a call list number
exactly one per call, and the single message appended for each call answers
that call's id. -/
theorem toolCall_one_reply (env : Env) (tcs : List ToolCall) :
    ((appended (runCalls env tcs)).filter isToolRole).length = tcs.length ∧
    ∀ tc : ToolCall,
      ((appended (runCall env tc)).filter isToolRole).map Message.tool_call_id =
        [some tc.id] := by
  have hsingle : ∀ tc : ToolCall,
      ((appended (runCall env tc)).filter isToolRole).map Message.tool_call_id =
        [some tc.id] := by
    intro tc
    obtain ⟨nm, c, h⟩ := runCall_appended env tc
    rw [h]
    rfl
  refine ⟨?_, hsingle⟩
  induction tcs with
  | nil => rfl
  | cons tc tcs ih =>
    rw [runCalls_cons, appended_append, List.filter_append, List.length_append, ih]
    obtain ⟨nm, c, h⟩ := runCall_appended env tc
    rw [h, show (([toolMsg nm tc.id c] : List Message).filter isToolRole).length = 1 from rfl,
      List.length_cons]
    omega

/-- C2: a provider `complete` that raises on any iteration makes the loop
abort at once: the failing iteration appends exactly the completion call and
one `error:provider` emission with error_type `completion_failed` and
severity `high`, performs no tool processing and no further iterations, and
returns `"Error getting response: " ++ e`; over any run at most one
`error:provider` is emitted; and whenever a provider was selected,
`session:end` is still emitted exactly once by `execute`. -/
theorem provider_failure_aborts :
    (∀ (env : Env) (p : Provider) (st : St) (n : Nat) (e : String),
       p.complete st.msgs (env.tools.map Prod.snd) = CompleteOutcome.exn e →
       loop env p (n + 1) st =
         ({ msgs := st.msgs,
            tr := st.tr ++ [Ev.completeCall,
              Ev.emit "error:provider"
                [("error_type", PVal.s "completion_failed"),
                 ("error_message", PVal.s e),
                 ("severity", PVal.s "high")]] },
          "Error getting response: " ++ e)) ∧
    (∀ (env : Env) (p : Provider) (n : Nat) (st : St),
       ((loop env p n st).1.tr).countP (isEmitOf "error:provider") ≤
         st.tr.countP (isEmitOf "error:provider") + 1) ∧
    (∀ (env : Env) (prompt : String) (p : Provider),
       selectProvider env = some p →
       ((execute env prompt).1.tr).countP (isEmitOf "session:end") = 1) := by
  refine ⟨?_, ?_, ?_⟩
  · intro env p st n e hc
    exact loop_succ_exn env p st n e hc
  · intro env p n st
    exact loop_countP_errProvider env p n st
  · intro env prompt p hp
    rw [execute_some env prompt p hp]
    simp only [List.countP_append, loop_countP_sessionEnd env p]
    rfl

/-- C2 witness: a provider raising `"boom"` on the first iteration makes the
loop return the corresponding error string. -/
theorem provider_failure_aborts_witness :
    (loop envBase provFail (0 + 1) (initSt "hi")).2 = "Error getting response: " ++ "boom" := by
  rw [provider_failure_aborts.1 envBase provFail (initSt "hi") 0 "boom" rfl]

/-- C3: a tool call denied at `tool:selecting` produces exactly the
`tool:selecting` emission followed by the append of one tool-role message
with content `"Error: " ++ (reason or "Tool execution denied by scheduler")`
— in particular the tool is never executed and no `tool:pre`/`tool:post`
events fire for that call — and processing proceeds to the next call. -/
theorem selecting_deny_skips_call (env : Env) (tc : ToolCall) (tcs : List ToolCall)
    (h : (selectingResult env tc).action = "deny") :
    runCall env tc =
      [Ev.emit "tool:selecting" (selectingPayload env tc),
       Ev.addMessage (toolMsg tc.tool tc.id
         ("Error: " ++ pyOr (selectingResult env tc).reason
            "Tool execution denied by scheduler"))] ∧
    runCalls env (tc :: tcs) = runCall env tc ++ runCalls env tcs := by
  constructor
  · unfold runCall
    rw [if_pos h]
  · exact runCalls_cons env tc tcs

/-- C3 witness: with a reasonless scheduler denial, the echo call appends
exactly the default denial message and nothing is executed. -/
theorem selecting_deny_skips_call_witness :
    (appended (runCall envDenySel tcEcho)).map Message.content =
      ["Error: Tool execution denied by scheduler"] := by
  rw [(selecting_deny_skips_call envDenySel tcEcho [] (by decide)).1]
  rfl

/-- C5: with an empty providers mapping, `execute` returns exactly
`"Error: No providers available"`, after having emitted `session:start` and
appended the user message carrying the prompt, with no other side effects
and no `session:end` emission. -/
theorem no_providers_early_return (env : Env) (prompt : String)
    (h : env.providers = []) :
    execute env prompt =
      ({ msgs := [{ role := "user", content := prompt }],
         tr := [Ev.emit "session:start" [("prompt", PVal.s prompt)],
                Ev.addMessage { role := "user", content := prompt }] },
       "Error: No providers available") := by
  rw [execute_none env prompt (selectProvider_empty env h)]
  rfl

/-- C5 witness: the empty-provider environment returns the error string with
only the two entry actions in its trace. -/
theorem no_providers_early_return_witness :
    (execute envEmpty "hi").2 = "Error: No providers available" := by
  rw [no_providers_early_return envEmpty "hi" rfl]

/-- C4 counterexample: with a scheduler that modifies the selection to the
mounted echo tool and a `tool:pre` hook that denies, the modified tool is
found in the mapping yet never executed — refuting the claim's unconditional
"if found, executed". -/
theorem selecting_modify_counterexample :
    (selectingResult envModDeny tcGhost).action = "modify" ∧
    List.lookup "tool" ((selectingResult envModDeny tcGhost).data.getD []) = some "echo" ∧
    (List.lookup (resolvedName envModDeny tcGhost) envModDeny.tools).isSome = true ∧
    (runCall envModDeny tcGhost).countP isExecTool = 0 := by
  refine ⟨rfl, rfl, rfl, ?_⟩
  decide

/-- C4 (amended): under a `modify` verdict, the effective tool name is
`data["tool"]` when data is present, non-empty and holds that key, else the
original name; the `tool:selected` emission carries source `"scheduler"` and
the original name; and the resolved tool, when found and not denied at
`tool:pre`, is executed. -/
theorem selecting_modify_resolves (env : Env) (tc : ToolCall)
    (h : (selectingResult env tc).action = "modify") :
    (∀ d x, (selectingResult env tc).data = some d → d ≠ [] →
       List.lookup "tool" d = some x → resolvedName env tc = x) ∧
    ((∀ d, (selectingResult env tc).data = some d → List.lookup "tool" d = none) →
       resolvedName env tc = tc.tool) ∧
    Ev.emit "tool:selected"
      [("tool", PVal.s (resolvedName env tc)), ("source", PVal.s "scheduler"),
       ("original_tool", PVal.s tc.tool)] ∈ runCall env tc ∧
    (∀ t, List.lookup (resolvedName env tc) env.tools = some t →
       (preResult env tc).action ≠ "deny" →
       Ev.execTool (resolvedName env tc) tc.arguments ∈ runCall env tc) := by
  have hnd : (selectingResult env tc).action ≠ "deny" := by
    rw [h]; decide
  refine ⟨?_, ?_, ?_, ?_⟩
  · intro d x hd hne hx
    simp [resolvedName, h, modifyName, hd, hne, hx]
  · intro hall
    rcases hd : (selectingResult env tc).data with _ | d
    · simp [resolvedName, h, modifyName, hd]
    · simp [resolvedName, h, modifyName, hd, hall d hd]
  · obtain ⟨rest, hr⟩ := runCall_header env tc hnd
    have hsel : selectedPayload env tc =
        [("tool", PVal.s (resolvedName env tc)), ("source", PVal.s "scheduler"),
         ("original_tool", PVal.s tc.tool)] := by
      simp [selectedPayload, h]
    rw [hr, ← hsel]
    simp [headerEvents]
  · intro t ht hpre
    exact runCall_exec_mem env tc t hnd hpre ht

/-- C4 witness: a modifying scheduler with a permissive `tool:pre` hook makes
the modified (mounted) echo tool actually execute. -/
theorem selecting_modify_resolves_witness :
    Ev.execTool (resolvedName envMod tcGhost) tcGhost.arguments ∈ runCall envMod tcGhost :=
  (selecting_modify_resolves envMod tcGhost (by decide)).2.2.2 echoTool rfl (by decide)

/-- C6: a response with no tool calls terminates the loop on that same
iteration, appending an assistant message whose content is the response
content and returning that content; at the `execute` level the returned
string is the response content. -/
theorem no_toolCalls_terminates :
    (∀ (env : Env) (p : Provider) (st : St) (n : Nat) (r : PResponse),
       p.complete st.msgs (env.tools.map Prod.snd) = CompleteOutcome.ok r →
       r.toolCalls = [] →
       loop env p (n + 1) st =
         ({ msgs := st.msgs ++ [{ role := "assistant", content := r.content }],
            tr := st.tr ++ [Ev.completeCall,
              Ev.addMessage { role := "assistant", content := r.content }] },
          r.content)) ∧
    (∀ (env : Env) (prompt : String) (p : Provider) (r : PResponse),
       selectProvider env = some p →
       p.complete (initSt prompt).msgs (env.tools.map Prod.snd) = CompleteOutcome.ok r →
       r.toolCalls = [] →
       0 < env.maxIterations →
       (execute env prompt).2 = r.content) := by
  constructor
  · intro env p st n r hc hr
    exact loop_succ_done env p st n r hc hr
  · intro env prompt p r hp hc hr hm
    rw [execute_some env prompt p hp]
    obtain ⟨n, hn⟩ : ∃ n, env.maxIterations = n + 1 :=
      ⟨env.maxIterations - 1, by omega⟩
    rw [hn, loop_succ_done env p (initSt prompt) n r hc hr]

/-- C6 witness: a provider that answers plainly on the first turn makes
`execute` return that answer. -/
theorem no_toolCalls_terminates_witness :
    (execute envDone "hi").2 = respFinal.content :=
  no_toolCalls_terminates.2 envDone "hi" provDone respFinal rfl rfl rfl (by decide)

/-- C7: with `max_iterations = 1` and a first response carrying tool calls,
`execute` performs exactly one completion call, completes that iteration's
tool processing and compaction check, and returns the empty string
(`final_response`'s initialization value), with the full trace as stated. -/
theorem max_iterations_exhausted (env : Env) (prompt : String) (p : Provider)
    (r : PResponse)
    (h1 : env.maxIterations = 1)
    (hp : selectProvider env = some p)
    (hc : p.complete (initSt prompt).msgs (env.tools.map Prod.snd) = CompleteOutcome.ok r)
    (hne : r.toolCalls ≠ []) :
    (execute env prompt).2 = "" ∧
    ((execute env prompt).1.tr).countP isCompleteCall = 1 ∧
    (execute env prompt).1.tr =
      (initSt prompt).tr ++ [Ev.completeCall, Ev.addMessage (asstMsg r)] ++
        runCalls env r.toolCalls ++
        compactEvents (env.shouldCompact
          ((initSt prompt).msgs ++ [asstMsg r] ++ appended (runCalls env r.toolCalls))) ++
        [Ev.emit "session:end" [("response", PVal.s "")]] := by
  have e1 : loop env p (0 + 1) (initSt prompt) =
      loop env p 0 (stepState env (initSt prompt) r) :=
    loop_succ_step env p (initSt prompt) 0 r hc hne
  rw [Nat.zero_add] at e1
  have e3 : loop env p env.maxIterations (initSt prompt) =
      (stepState env (initSt prompt) r, "") := by
    rw [h1, e1]
    rfl
  rw [execute_some env prompt p hp, e3]
  refine ⟨rfl, ?_, ?_⟩
  · show List.countP isCompleteCall ((stepState env (initSt prompt) r).tr ++
      [Ev.emit "session:end" [("response", PVal.s "")]]) = 1
    rw [stepState_tr]
    simp only [List.countP_append]
    rw [countP_zero_of (fun e he => (runCalls_inert env r.toolCalls e he).1),
      (compactEvents_counts _).2.2]
    rfl
  · show (stepState env (initSt prompt) r).tr ++
      [Ev.emit "session:end" [("response", PVal.s "")]] = _
    rw [stepState_tr]

/-- C7 witness: the one-iteration environment with a tool-calling provider
returns the empty string. -/
theorem max_iterations_exhausted_witness :
    (execute envOne "hi").2 = "" :=
  (max_iterations_exhausted envOne "hi" provEcho respEcho rfl rfl rfl (by decide)).1

/-- C8: every tool-call iteration reduces to the stepped state whose trace
appends, after all per-call actions, exactly `context:pre-compact` followed
by one `compact()` invocation when `should_compact` holds on the
post-tool-processing messages and nothing otherwise; the per-call actions
themselves never compact; and any following iteration begins with the next
completion call, so the compaction check of an iteration sits after that
iteration's tool execution and before the next completion request. -/
theorem compaction_check :
    (∀ (env : Env) (p : Provider) (st : St) (n : Nat) (r : PResponse),
       p.complete st.msgs (env.tools.map Prod.snd) = CompleteOutcome.ok r →
       r.toolCalls ≠ [] →
       loop env p (n + 1) st = loop env p n (stepState env st r)) ∧
    (∀ (env : Env) (st : St) (r : PResponse),
       (stepState env st r).tr =
         st.tr ++ [Ev.completeCall, Ev.addMessage (asstMsg r)] ++
           runCalls env r.toolCalls ++
           (if env.shouldCompact (st.msgs ++ [asstMsg r] ++ appended (runCalls env r.toolCalls))
            then [Ev.emit "context:pre-compact" [], Ev.compactCall] else [])) ∧
    (∀ (env : Env) (tcs : List ToolCall), ∀ e ∈ runCalls env tcs,
       isCompactCall e = false ∧ isEmitOf "context:pre-compact" e = false) ∧
    (∀ (env : Env) (p : Provider) (n : Nat) (st : St), 0 < n →
       ∃ rest, (loop env p n st).1.tr = st.tr ++ Ev.completeCall :: rest) := by
  refine ⟨?_, ?_, ?_, loop_tr_begin⟩
  · intro env p st n r hc hr
    exact loop_succ_step env p st n r hc hr
  · intro env st r
    exact stepState_tr env st r
  · intro env tcs e he
    exact ⟨(runCalls_inert env tcs e he).2.1, (runCalls_inert env tcs e he).2.2.2.2⟩

/-- C8 witness: on the base environment the first tool-call iteration reduces
to the loop on the stepped state. -/
theorem compaction_check_witness :
    loop envBase provEcho (0 + 1) (initSt "hi") =
      loop envBase provEcho 0 (stepState envBase (initSt "hi") respEcho) :=
  compaction_check.1 envBase provEcho (initSt "hi") 0 respEcho rfl (by decide)

/-- C9 counterexample: with no tools mounted and permissive hooks, the
resolved tool of the echo call is not found, yet one `tool:pre` event is
emitted for that call — refuting the claim that no `tool:pre` fires for a
call whose resolved tool is not found. -/
theorem toolPre_found_only_counterexample :
    List.lookup (resolvedName envNoTools tcEcho) envNoTools.tools = none ∧
    (runCall envNoTools tcEcho).countP (isEmitOf "tool:pre") = 1 := by
  exact ⟨rfl, by decide⟩

/-- C9 (amended): `tool:pre` is emitted exactly once for every tool call that
is not denied at `tool:selecting`, whether or not the resolved tool is found;
its payload carries `tool_obj` exactly when the tool is found; and no
`tool:pre` fires for a call denied at `tool:selecting`. -/
theorem toolPre_emitted_unconditionally (env : Env) (tc : ToolCall)
    (h : (selectingResult env tc).action ≠ "deny") :
    (runCall env tc).countP (isEmitOf "tool:pre") = 1 ∧
    Ev.emit "tool:pre" (prePayload env (resolvedName env tc) tc.arguments) ∈
      runCall env tc ∧
    prePayload env (resolvedName env tc) tc.arguments =
      [("tool", PVal.s (resolvedName env tc)), ("arguments", PVal.s tc.arguments)] ++
        (if (List.lookup (resolvedName env tc) env.tools).isSome
         then [("tool_obj", PVal.toolObj)] else []) ∧
    (∀ tc2 : ToolCall, (selectingResult env tc2).action = "deny" →
       (runCall env tc2).countP (isEmitOf "tool:pre") = 0) := by
  refine ⟨?_, ?_, rfl, ?_⟩
  · unfold runCall
    rw [if_neg h]
    split
    · rfl
    · split
      · rfl
      · split
        · rfl
        · rfl
  · obtain ⟨rest, hr⟩ := runCall_header env tc h
    rw [hr]
    simp [headerEvents]
  · intro tc2 h2
    unfold runCall
    rw [if_pos h2]
    rfl

/-- C9 witness: on the tool-less environment the non-denied echo call emits
`tool:pre` once even though its tool is missing. -/
theorem toolPre_emitted_unconditionally_witness :
    (runCall envNoTools tcEcho).countP (isEmitOf "tool:pre") = 1 :=
  (toolPre_emitted_unconditionally envNoTools tcEcho (by decide)).1

/-- C10: when the resolved tool is absent from the mapping but the `tool:pre`
hook denies, the deny branch takes precedence over the not-found branch: the
call's actions are exactly the header emissions plus the append of one
tool-role message with content `"Error: " ++ (reason or "Tool execution
denied")`, so no not-found message and no `error:tool` event are produced. -/
theorem preDeny_precedes_notFound (env : Env) (tc : ToolCall)
    (h1 : (selectingResult env tc).action ≠ "deny")
    (h2 : List.lookup (resolvedName env tc) env.tools = none)
    (h3 : (preResult env tc).action = "deny") :
    runCall env tc =
      headerEvents env tc ++
        [Ev.addMessage (toolMsg (resolvedName env tc) tc.id
          ("Error: " ++ pyOr (preResult env tc).reason "Tool execution denied"))] ∧
    appended (runCall env tc) =
      [toolMsg (resolvedName env tc) tc.id
        ("Error: " ++ pyOr (preResult env tc).reason "Tool execution denied")] ∧
    (runCall env tc).countP (isEmitOf "error:tool") = 0 := by
  have hr : runCall env tc =
      headerEvents env tc ++
        [Ev.addMessage (toolMsg (resolvedName env tc) tc.id
          ("Error: " ++ pyOr (preResult env tc).reason "Tool execution denied"))] := by
    unfold runCall
    rw [if_neg h1, if_pos h3]
  refine ⟨hr, ?_, ?_⟩
  · rw [hr]
    rfl
  · rw [hr]
    rfl

/-- C10 witness: with no tools and a `tool:pre` denial with reason
`"blocked"`, the echo call is answered by the denial message, not a
not-found message. -/
theorem preDeny_precedes_notFound_witness :
    appended (runCall envPreDeny tcEcho) = [toolMsg "echo" "id1" ("Error: " ++ "blocked")] :=
  (preDeny_precedes_notFound envPreDeny tcEcho (by decide) rfl (by decide)).2.1

end LoopEvents
